import Mathlib

/-!
Shallow embedding of `src/main.rs` of ParallelSeleniumTest: a concurrent
smoke-test runner that opens remote browser sessions, drives each through a
fixed scripted interaction, and aggregates per-session outcomes into a
process exit code.

External remote-protocol calls (open session, navigate, find element, read
text, click, send keys, set cookie, close session) are request/response
calls that may fail; each call's result is an input of the embedding (an
environment field or argument), and every attempted call is recorded in an
event trace so that claims about "no network call", "teardown exactly once"
and the cookie telemetry side channel can be stated.
-/

deriving instance DecidableEq for Except

namespace ParallelSeleniumTest

/-- Per-character model of Rust's byte-wise ASCII lowercasing
(`to_ascii_lowercase`): bytes `b'A'..=b'Z'` are shifted by 32, everything
else (including all non-ASCII characters) is untouched.  Char-level mapping
is faithful because UTF-8 bytes of multi-byte characters are ≥ 0x80 and are
never remapped. -/
def asciiLower (c : Char) : Char :=
  if 'A' ≤ c ∧ c ≤ 'Z' then Char.ofNat (c.toNat + 32) else c

/-- Model of Rust's `str::eq_ignore_ascii_case` (used at main.rs:177):
equality after ASCII-lowercasing every character. -/
def eqIgnoreAsciiCase (a b : String) : Bool :=
  a.data.map asciiLower == b.data.map asciiLower

/-- `strStartsWith needle hay`: `needle` is a prefix of `hay`. -/
def strStartsWith : List Char → List Char → Bool
  | [], _ => true
  | _ :: _, [] => false
  | c :: cs, d :: ds => c == d && strStartsWith cs ds

/-- `strContainsSub needle hay`: `needle` occurs contiguously in `hay`. -/
def strContainsSub (needle : List Char) : List Char → Bool
  | [] => needle.isEmpty
  | c :: rest => strStartsWith needle (c :: rest) || strContainsSub needle rest

/-- Substring test on strings, used to formalise "the error message
contains the expected / actual value". -/
def containsSubstring (needle hay : String) : Bool :=
  strContainsSub needle.data hay.data

/-- Digit-string to number; `none` when empty or any non-digit appears. -/
def parseDigits (ds : List Char) : Option Nat :=
  if ds.isEmpty then none
  else if ds.all (fun c => c.isDigit) then
    some (ds.foldl (fun acc c => acc * 10 + (c.toNat - 48)) 0)
  else none

/-- Model of Rust's `str::parse::<i32>` (main.rs:186,192): optional sign,
one or more ASCII digits, result within the i32 range. -/
def parseI32 (s : String) : Option Int :=
  match s.data with
  | '+' :: ds =>
    (parseDigits ds).bind fun n =>
      if n ≤ 2147483647 then some (n : Int) else none
  | '-' :: ds =>
    (parseDigits ds).bind fun n =>
      if n ≤ 2147483648 then some (-(n : Int)) else none
  | ds =>
    (parseDigits ds).bind fun n =>
      if n ≤ 2147483647 then some (n : Int) else none

/-- Release-mode semantics of the i32 addition `value + 1` at
main.rs:193 (wraps at the i32 maximum). -/
def i32WrapAdd1 (v : Int) : Int :=
  if v = 2147483647 then -2147483648 else v + 1

/-- One attempted remote-protocol call, as recorded by the embedding. -/
inductive Event
  | openSession (browser : String)
  | navigate
  | extCommand (endpoint : String)
  | findElement (selector : String)
  | readText (selector : String)
  | click (selector : String)
  | sendKeys (selector : String) (text : String)
  | setCookie (name : String) (value : String)
  | quit
  deriving DecidableEq

/-- Is this event the remote session-close (teardown) call? -/
def Event.isQuit : Event → Bool
  | .quit => true
  | _ => false

/-- Is this event an emission of the final status marker cookie? -/
def Event.isStatus : Event → Bool
  | .setCookie n _ => n == "webgrid:metadata.session:status"
  | _ => false

/-- Number of teardown (close-session) calls in a trace. -/
def countQuit (tr : List Event) : Nat :=
  tr.countP Event.isQuit

/-- Number of final-status-marker emissions in a trace. -/
def countStatus (tr : List Event) : Nat :=
  tr.countP Event.isStatus

/-- Model of `send_message` (main.rs:226-230): sets the `webgrid:message`
cookie, discards the `add_cookie` result (the `r` argument) via `.ok()`,
and always returns `Ok(())`. -/
def send_message (_r : Except String Unit) (message : String) :
    Except String Unit × List Event :=
  (Except.ok (), [Event.setCookie "webgrid:message" message])

/-- Model of `set_status` (main.rs:232-237): sets the
`webgrid:metadata.session:status` cookie, discards the `add_cookie` result
(the `r` argument) via `.ok()`, and always returns `Ok(())`. -/
def set_status (_r : Except String Unit) (status : String) :
    Except String Unit × List Event :=
  (Except.ok (), [Event.setCookie "webgrid:metadata.session:status" status])

/-- Expected `h1` text literal of main.rs:177. -/
def expectedTitle : String := "Horrible looking test-page"

/-- The value typed into the hash input field, literal of main.rs:201. -/
def expected_hash : String := "No emojis allowed here :("

/-- Results of the remote-protocol calls attempted by `run_test_content`,
one field per call site, in source order (main.rs:161-224).  The page is
navigated to a data-URL of the bundled fixture; the extension-command
result is discarded by the code (`.ok()`) and therefore has no field. -/
structure ContentEnv where
  navigate : Except String Unit
  findH1 : Except String Unit
  h1Text : Except String String
  findCounter : Except String Unit
  counterText1 : Except String String
  findIncrement : Except String Unit
  clickIncrement : Except String Unit
  counterText2 : Except String String
  findHashInput : Except String Unit
  sendKeysHash : Except String Unit
  sendKeysEnter : Except String Unit
  findHashValue : Except String Unit
  hashValueText : Except String String
  deriving DecidableEq

/-- Steps 3 and on of `run_test_content` (main.rs:199-223), split out for
readability: type the fixed value into the hash input, submit with the
Enter key (WebDriver codepoint U+E007), read back the dependent element,
compare exactly, and emit the final telemetry.  `t8` is the trace
accumulated by the earlier steps. -/
def hashStep (env : ContentEnv) (ck : Except String Unit) (t8 : List Event) :
    Except String Unit × List Event :=
  let t9 := t8 ++ (send_message ck "Checking hash value").snd
      ++ [Event.findElement "newHashValue"]
  match env.findHashInput with
  | .error e => (.error e, t9)
  | .ok _ =>
    let t10 := t9 ++ [Event.sendKeys "newHashValue" expected_hash]
    match env.sendKeysHash with
    | .error e => (.error e, t10)
    | .ok _ =>
      let t11 := t10 ++ [Event.sendKeys "newHashValue" "\uE007"]
      match env.sendKeysEnter with
      | .error e => (.error e, t11)
      | .ok _ =>
        let t12 := t11 ++ [Event.findElement "hashValue"]
        match env.findHashValue with
        | .error e => (.error e, t12)
        | .ok _ =>
          let t13 := t12 ++ [Event.readText "hashValue"]
          match env.hashValueText with
          | .error e => (.error e, t13)
          | .ok hash =>
            if hash ≠ expected_hash then
              (.error ("Hash value updating is broken: " ++ hash
                  ++ " != " ++ expected_hash),
                t13 ++ (send_message ck "Hash value updating is broken.").snd
                   ++ (set_status ck "failure").snd)
            else
              (.ok (),
                t13 ++ (send_message ck "It worked!").snd
                   ++ (set_status ck "success").snd)

/-- Model of `run_test_content` (main.rs:161-224).  `ck` stands for the
result of the underlying `add_cookie` calls, which the code discards; the
`?` after each `send_message`/`set_status` call never fires because those
functions always return `Ok`.  Returns the step outcome and the trace of
attempted remote calls.  Error strings of propagated remote-call failures
are whatever the environment supplies; the three explicit `bail!` messages
are the source literals. -/
def run_test_content (env : ContentEnv) (ck : Except String Unit) :
    Except String Unit × List Event :=
  let t1 := (send_message ck "Visiting demo page").snd ++ [Event.navigate]
  match env.navigate with
  | .error e => (.error e, t1)
  | .ok _ =>
    let t2 := t1 ++ [Event.extCommand "/webgrid/metadata"]
        ++ (send_message ck "Checking title").snd ++ [Event.findElement "h1"]
    match env.findH1 with
    | .error e => (.error e, t2)
    | .ok _ =>
      let t3 := t2 ++ [Event.readText "h1"]
      match env.h1Text with
      | .error e => (.error e, t3)
      | .ok title =>
        if ! eqIgnoreAsciiCase title expectedTitle then
          (.error "Title mismatched :(",
            t3 ++ (send_message ck "Title mismatch.").snd
               ++ (set_status ck "failure").snd)
        else
          let t4 := t3 ++ (send_message ck "Checking increment").snd
              ++ [Event.findElement "counter"]
          match env.findCounter with
          | .error e => (.error e, t4)
          | .ok _ =>
            let t5 := t4 ++ [Event.readText "counter"]
            match env.counterText1 with
            | .error e => (.error e, t5)
            | .ok v1 =>
              match parseI32 v1 with
              | none => (.error "invalid digit found in string", t5)
              | some value =>
                let t6 := t5 ++ [Event.findElement "increment"]
                match env.findIncrement with
                | .error e => (.error e, t6)
                | .ok _ =>
                  let t7 := t6 ++ [Event.click "increment"]
                  match env.clickIncrement with
                  | .error e => (.error e, t7)
                  | .ok _ =>
                    let t8 := t7 ++ [Event.readText "counter"]
                    match env.counterText2 with
                    | .error e => (.error e, t8)
                    | .ok v2 =>
                      match parseI32 v2 with
                      | none => (.error "invalid digit found in string", t8)
                      | some newValue =>
                        if i32WrapAdd1 value ≠ newValue then
                          (.error "Increment is broken :(",
                            t8 ++ (send_message ck "Increment is broken.").snd
                               ++ (set_status ck "failure").snd)
                        else
                          hashStep env ck t8

/-- The closed set of browser kinds accepted by `run_test`
(main.rs:133-147): the `==` chain over the lowercased browser string. -/
def browserKnown (b : String) : Bool :=
  b == "firefox" || b == "chrome" || b == "safari"

/-- Error wrapping of main.rs:153: tag an interaction failure with the
session id; a success stays a success. -/
def wrapVerdict (session_id : String) : Except String Unit → Except String Unit
  | .ok _ => .ok ()
  | .error e => .error (session_id ++ " failed due to " ++ e)

/-- Model of `run_test` (main.rs:128-159).  `openResult` is the result of
`WebDriver::new_with_timeout` (session id on success), `ck` the discarded
`add_cookie` results, `quitResult` the result of `driver.quit()`, which
the code discards via `.ok()` on both exit paths.  An unknown browser
bails before any remote call (empty trace). -/
def run_test (browser : String) (openResult : Except String String)
    (env : ContentEnv) (ck : Except String Unit)
    (_quitResult : Except String Unit) : Except String Unit × List Event :=
  if browserKnown browser then
    match openResult with
    | .error e => (.error e, [Event.openSession browser])
    | .ok session_id =>
      match run_test_content env ck with
      | (r, tr) =>
        (wrapVerdict session_id r, Event.openSession browser :: tr ++ [Event.quit])
  else
    (.error "Unknown browser!", [])

/-- Model of the external `open-session(endpoint, capabilities, timeout)`
collaborator contract: the request timeout passed at main.rs:136/140/144
covers the whole session-creation call, which fails when its duration
exceeds the timeout. -/
def new_with_timeout (timeoutSecs openDur : Nat)
    (openResult : Except String String) : Except String String :=
  if openDur > timeoutSecs then .error "Session creation timed out" else openResult

/-- Timed view of one `run_test` execution.  `openDur` and `contentDur`
are the durations of the session-creation call and of the whole scripted
interaction; the only place the configured timeout is consulted is the
session-creation call, exactly as in main.rs (the timeout is passed only
to `WebDriver::new_with_timeout`).  Returns the functional result paired
with the task's total duration. -/
def run_test_timed (browser : String) (openResult : Except String String)
    (env : ContentEnv) (ck quitResult : Except String Unit)
    (timeoutSecs openDur contentDur : Nat) :
    (Except String Unit × List Event) × Nat :=
  if browserKnown browser then
    if openDur > timeoutSecs then
      (run_test browser (new_with_timeout timeoutSecs openDur openResult)
        env ck quitResult, timeoutSecs)
    else
      match openResult with
      | .error _ => (run_test browser openResult env ck quitResult, openDur)
      | .ok _ => (run_test browser openResult env ck quitResult, openDur + contentDur)
  else
    (run_test browser openResult env ck quitResult, 0)

/-- Outcome of one spawned session task as the orchestrator's collection
loop observes it: `finished r` when the task ran to completion returning
`r`, `faulted m` when the task's concurrent unit aborted (e.g. panicked),
in which case awaiting its join handle yields a join error. -/
inductive TaskResult
  | finished (r : Except String Unit)
  | faulted (msg : String)
  deriving DecidableEq

/-- The task aborted without reporting a result. -/
def TaskResult.isFaulted : TaskResult → Bool
  | .faulted _ => true
  | _ => false

/-- The task completed and reported a failure. -/
def TaskResult.isFailure : TaskResult → Bool
  | .finished (.error _) => true
  | _ => false

/-- The task completed and reported success. -/
def TaskResult.isSuccess : TaskResult → Bool
  | .finished (.ok _) => true
  | _ => false

/-- How many times one task increments the shared `failed` counter
(main.rs:101): once when its `run_test` returned an error, never
otherwise — a faulted (panicked) task aborts before the increment. -/
def taskIncrement (t : TaskResult) : Nat :=
  if t.isFailure then 1 else 0

/-- Final value of the shared atomic `failed` counter after the given
tasks have completed: each failing task added exactly one. -/
def failedCount (tasks : List TaskResult) : Nat :=
  tasks.countP TaskResult.isFailure

/-- Model of the collection loop `for handle in handles { handle.await?.ok() }`
(main.rs:109-111): completed task results are discarded by `.ok()`, but a
join error from a faulted task is propagated out of `main` by `?`. -/
def awaitAll : List TaskResult → Except String Unit
  | [] => .ok ()
  | .faulted m :: _ => .error m
  | .finished _ :: rest => awaitAll rest

/-- What the process run produced: the exit code, and the summary line
`(succeeded, total)` if one was printed. -/
structure MainOutcome where
  exitCode : Nat
  summary : Option (Nat × Nat)
  deriving DecidableEq

/-- Model of the tail of `main` (main.rs:109-126): await every handle in
order (propagating a join error, which makes `main` return `Err` — exit
code 1, no summary), otherwise read the `failed` counter, print the
summary line `count - failed / count`, and exit 1 when `failed > 0`,
0 otherwise. -/
def mainRun (tasks : List TaskResult) : MainOutcome :=
  match awaitAll tasks with
  | .error _ => ⟨1, none⟩
  | .ok _ =>
    if failedCount tasks > 0 then
      ⟨1, some (tasks.length - failedCount tasks, tasks.length)⟩
    else
      ⟨0, some (tasks.length - failedCount tasks, tasks.length)⟩

/-- An interaction environment in which every remote call succeeds, the
counter goes 0 to 1 and the hash round-trips, parameterised by the text
the `h1` element reports. -/
def envWithTitle (t : String) : ContentEnv :=
  ⟨.ok (), .ok (), .ok t, .ok (), .ok "0", .ok (), .ok (),
    .ok "1", .ok (), .ok (), .ok (), .ok (), .ok expected_hash⟩

/-- An interaction environment in which every remote call succeeds up to
the hash step, parameterised by the value the page displays after typing. -/
def envWithHash (h : String) : ContentEnv :=
  ⟨.ok (), .ok (), .ok expectedTitle, .ok (), .ok "0", .ok (), .ok (),
    .ok "1", .ok (), .ok (), .ok (), .ok (), .ok h⟩

/-- A fully successful interaction environment: every remote call
succeeds, the title matches, the counter goes 0 to 1, the hash round-trips. -/
def envAllOk : ContentEnv := envWithTitle expectedTitle

/-- An environment whose very first remote call (the navigation) fails
with a transport error; everything else would succeed. -/
def envNavFail : ContentEnv :=
  ⟨.error "connection refused", .ok (), .ok expectedTitle, .ok (), .ok "0",
    .ok (), .ok (), .ok "1", .ok (), .ok (), .ok (), .ok (), .ok expected_hash⟩

/-! ## Orchestrator lemmas -/

/-- In a fault-free run the collection loop completes without
propagating a join error. -/
theorem awaitAll_ok (tasks : List TaskResult)
    (h : ∀ u ∈ tasks, u.isFaulted = false) : awaitAll tasks = .ok () := by
  induction tasks with
  | nil => rfl
  | cons t rest ih =>
    cases t with
    | finished r => exact ih fun u hu => h u (List.mem_cons_of_mem _ hu)
    | faulted m =>
      have := h _ (List.mem_cons_self _ _)
      simp [TaskResult.isFaulted] at this

/-- If some task faulted, the collection loop propagates a join error. -/
theorem awaitAll_error (tasks : List TaskResult) (m : String)
    (h : TaskResult.faulted m ∈ tasks) :
    ∃ m', awaitAll tasks = .error m' := by
  induction tasks with
  | nil => cases h
  | cons t rest ih =>
    cases t with
    | faulted m' => exact ⟨m', rfl⟩
    | finished r =>
      rcases List.mem_cons.mp h with h' | h'
      · cases h'
      · exact ih h'

/-- Each task adds its increment to the counter; nothing is ever removed. -/
theorem failedCount_append (l : List TaskResult) (t : TaskResult) :
    failedCount (l ++ [t]) = failedCount l + taskIncrement t := by
  simp only [failedCount, List.countP_append, List.countP_cons,
    List.countP_nil, taskIncrement]
  cases ht : t.isFailure <;> simp [ht]

/-- In a fault-free run, successes and failures partition the tasks. -/
theorem failedCount_add_successCount (tasks : List TaskResult)
    (h : ∀ u ∈ tasks, u.isFaulted = false) :
    failedCount tasks + tasks.countP TaskResult.isSuccess = tasks.length := by
  induction tasks with
  | nil => rfl
  | cons t rest ih =>
    have hrest := ih fun u hu => h u (List.mem_cons_of_mem _ hu)
    have ht := h t (List.mem_cons_self _ _)
    cases t with
    | faulted m => simp [TaskResult.isFaulted] at ht
    | finished r =>
      cases r with
      | ok u =>
        simp only [failedCount, List.countP_cons] at hrest ⊢
        simp [TaskResult.isFailure, TaskResult.isSuccess] at hrest ⊢
        omega
      | error e =>
        simp only [failedCount, List.countP_cons] at hrest ⊢
        simp [TaskResult.isFailure, TaskResult.isSuccess] at hrest ⊢
        omega

/-! ## Claim theorems: orchestration -/

/-- C1: in every run in which all launched tasks reach a terminal outcome
(none faults), the process exits 0 exactly when no session failed and 1
exactly when one or more failed, the summary line is printed, and the
zero-task run exits 0. -/
theorem c1_exit_code_reflects_failures (tasks : List TaskResult)
    (h : ∀ u ∈ tasks, u.isFaulted = false) :
    ((mainRun tasks).exitCode = 0 ↔ failedCount tasks = 0)
    ∧ ((mainRun tasks).exitCode = 1 ↔ 0 < failedCount tasks)
    ∧ (mainRun tasks).summary
        = some (tasks.length - failedCount tasks, tasks.length)
    ∧ (mainRun []).exitCode = 0 := by
  have ha := awaitAll_ok tasks h
  have hmain : mainRun tasks = ⟨if failedCount tasks > 0 then 1 else 0,
      some (tasks.length - failedCount tasks, tasks.length)⟩ := by
    unfold mainRun
    rw [ha]
    by_cases hf : failedCount tasks > 0 <;> simp [hf]
  refine ⟨?_, ?_, ?_, by decide⟩ <;> rw [hmain] <;>
    by_cases hf : failedCount tasks > 0 <;> simp [hf] <;> omega

/-- C1 witness: a concrete two-task run with one failure exits 1 and
reports one success out of two; the empty run exits 0. -/
theorem c1_exit_code_reflects_failures_witness :
    (mainRun [TaskResult.finished (.ok ()),
        TaskResult.finished (.error "session refused")]).exitCode = 1
    ∧ (mainRun [TaskResult.finished (.ok ()),
        TaskResult.finished (.error "session refused")]).summary = some (1, 2)
    ∧ (mainRun []).exitCode = 0 := by
  have h := c1_exit_code_reflects_failures
    [TaskResult.finished (.ok ()), TaskResult.finished (.error "session refused")]
    (by decide)
  exact ⟨h.2.1.mpr (by decide), h.2.2.1.trans (by decide), h.2.2.2⟩

/-- C3 counterexample: in a run whose only task faults (its concurrent
unit aborts, e.g. panics), the orchestrator does NOT convert the fault
into a counted failure and does NOT produce the summary: it propagates
the join error, exits 1 with no summary line, and the failure tally
stays 0. -/
theorem c3_fault_counterexample :
    mainRun [TaskResult.faulted "task aborted"] = ⟨1, none⟩
    ∧ failedCount [TaskResult.faulted "task aborted"] = 0 := by decide

/-- C3 amended: a fault inside one task never corrupts the tally
contributed by sibling tasks (a faulted task simply adds nothing), but
the collection loop propagates the join error: the process exits 1
without printing the summary. -/
theorem c3_fault_aborts_collection (tasks : List TaskResult) (m : String)
    (h : TaskResult.faulted m ∈ tasks) :
    mainRun tasks = ⟨1, none⟩
    ∧ ∀ (l₁ l₂ : List TaskResult),
        failedCount (l₁ ++ TaskResult.faulted m :: l₂) = failedCount (l₁ ++ l₂) := by
  constructor
  · obtain ⟨m', hm'⟩ := awaitAll_error tasks m h
    simp [mainRun, hm']
  · intro l₁ l₂
    simp [failedCount, List.countP_append, List.countP_cons, TaskResult.isFailure]

/-- C3 amended witness: a concrete run with one good task and one faulted
task exits 1 with no summary. -/
theorem c3_fault_aborts_collection_witness :
    mainRun [TaskResult.finished (.ok ()), TaskResult.faulted "task aborted"]
      = ⟨1, none⟩ := by
  exact (c3_fault_aborts_collection _ "task aborted" (by decide)).1

/-- C5: the shared failed counter is never decremented — completing one
more task adds exactly that task's increment (1 for a failing task, 0
otherwise); the final tally is the same for every interleaving
(permutation) of completion order; and in a fault-free run the reported
summary is (total - failed, total) with total - failed equal to the
number of successful tasks. -/
theorem c5_failed_counter_correct :
    (∀ (l : List TaskResult) (t : TaskResult),
      failedCount (l ++ [t]) = failedCount l + taskIncrement t)
    ∧ (∀ (l₁ l₂ : List TaskResult), l₁.Perm l₂ →
        failedCount l₁ = failedCount l₂)
    ∧ (∀ tasks : List TaskResult, (∀ u ∈ tasks, u.isFaulted = false) →
        (mainRun tasks).summary
          = some (tasks.length - failedCount tasks, tasks.length)
        ∧ tasks.length - failedCount tasks = tasks.countP TaskResult.isSuccess) := by
  refine ⟨failedCount_append, fun l₁ l₂ hp => hp.countP_eq _, fun tasks h => ⟨?_, ?_⟩⟩
  · have ha := awaitAll_ok tasks h
    unfold mainRun
    rw [ha]
    by_cases hf : failedCount tasks > 0 <;> simp [hf]
  · have := failedCount_add_successCount tasks h
    omega

/-- C5 witness: concrete instances — appending a failing task increments
the tally by one, a permuted completion order yields the same tally, and
a concrete fault-free run reports 1 of 2 succeeded. -/
theorem c5_failed_counter_correct_witness :
    failedCount ([TaskResult.finished (.ok ())] ++ [TaskResult.finished (.error "e")])
      = failedCount [TaskResult.finished (.ok ())]
          + taskIncrement (TaskResult.finished (.error "e"))
    ∧ failedCount [TaskResult.finished (.error "e"), TaskResult.finished (.ok ())]
      = failedCount [TaskResult.finished (.ok ()), TaskResult.finished (.error "e")]
    ∧ (mainRun [TaskResult.finished (.ok ()), TaskResult.finished (.error "e")]).summary
      = some (1, 2) := by
  refine ⟨c5_failed_counter_correct.1 _ _, c5_failed_counter_correct.2.1 _ _ (by decide), ?_⟩
  exact ((c5_failed_counter_correct.2.2
    [TaskResult.finished (.ok ()), TaskResult.finished (.error "e")]
    (by decide)).1).trans (by decide)

/-! ## Session driver lemmas -/

/-- The scripted interaction itself never issues the session-close call:
teardown is solely the driver's duty. -/
theorem content_no_quit (env : ContentEnv) (ck : Except String Unit) :
    countQuit (run_test_content env ck).snd = 0 := by
  obtain ⟨f1, f2, f3, f4, f5, f6, f7, f8, f9, f10, f11, f12, f13⟩ := env
  unfold run_test_content hashStep
  repeat' split
  all_goals simp [countQuit, send_message, set_status, Event.isQuit,
    List.countP_append, List.countP_cons]

/-! ## Claim theorems: session driver -/

/-- C2: whenever the session opens successfully (any known browser kind),
the driver issues the session-close call exactly once before returning,
on every exit path; the returned verdict is exactly the interaction's own
verdict (wrapped with the session id on failure); and the teardown call's
own result is discarded — substituting any other teardown result leaves
the driver's result and trace unchanged. -/
theorem c2_teardown_once_verdict_preserved (browser session_id : String)
    (env : ContentEnv) (ck q q' : Except String Unit)
    (hb : browserKnown browser = true) :
    countQuit (run_test browser (.ok session_id) env ck q).snd = 1
    ∧ (run_test browser (.ok session_id) env ck q).fst
        = wrapVerdict session_id (run_test_content env ck).fst
    ∧ run_test browser (.ok session_id) env ck q
        = run_test browser (.ok session_id) env ck q' := by
  have hq := content_no_quit env ck
  unfold run_test
  rw [hb]
  rcases hrc : run_test_content env ck with ⟨r, tr⟩
  rw [hrc] at hq
  refine ⟨?_, ?_, rfl⟩
  · simpa [countQuit, List.countP_append, List.countP_cons, Event.isQuit]
      using hq
  · rfl

/-- C2 witness: a concrete successfully opened session tears down exactly
once, and a failing teardown leaves the result untouched. -/
theorem c2_teardown_once_verdict_preserved_witness :
    countQuit (run_test "firefox" (.ok "f3a9") envAllOk (.ok ()) (.ok ())).snd = 1
    ∧ (run_test "firefox" (.ok "f3a9") envAllOk (.ok ()) (.ok ())).fst
        = wrapVerdict "f3a9" (run_test_content envAllOk (.ok ())).fst
    ∧ run_test "firefox" (.ok "f3a9") envAllOk (.ok ()) (.ok ())
        = run_test "firefox" (.ok "f3a9") envAllOk (.ok ()) (.error "quit failed") := by
  exact c2_teardown_once_verdict_preserved "firefox" "f3a9" envAllOk
    (.ok ()) (.ok ()) (.error "quit failed") (by decide)

/-- C6: for every browser kind outside the closed set {firefox, chrome,
safari}, the session task fails with the configuration error
"Unknown browser!" and an empty call trace: no network call is attempted,
no session is opened and no teardown is needed; the task reports an error
value rather than crashing. -/
theorem c6_unknown_browser_no_network (browser : String)
    (openR : Except String String) (env : ContentEnv)
    (ck q : Except String Unit) (hb : browserKnown browser = false) :
    run_test browser openR env ck q = (.error "Unknown browser!", []) := by
  unfold run_test
  rw [hb]
  rfl

/-- C6 witness: the spec's example browser kind "edge" (and anything else
outside the set) yields the configuration error with zero remote calls. -/
theorem c6_unknown_browser_no_network_witness :
    run_test "edge" (.ok "sid") envAllOk (.ok ()) (.ok ())
      = (.error "Unknown browser!", []) := by
  exact c6_unknown_browser_no_network "edge" (.ok "sid") envAllOk
    (.ok ()) (.ok ()) (by decide)

/-! ## Scripted-interaction lemmas -/

/-- Characters pointwise equivalent up to ASCII case have equal
lowercased lists. -/
theorem map_asciiLower_eq_of_forall2 (l1 l2 : List Char)
    (h : List.Forall₂ (fun c d => asciiLower c = asciiLower d) l1 l2) :
    l1.map asciiLower = l2.map asciiLower := by
  induction h with
  | nil => rfl
  | cons hcd _ ih => simp [List.map_cons, hcd, ih]

/-- Equal lowercased lists are pointwise equivalent up to ASCII case. -/
theorem forall2_of_map_asciiLower_eq : ∀ (l1 l2 : List Char),
    l1.map asciiLower = l2.map asciiLower →
    List.Forall₂ (fun c d => asciiLower c = asciiLower d) l1 l2
  | [], [], _ => .nil
  | [], _ :: _, h => by simp at h
  | _ :: _, [], h => by simp at h
  | a :: l1, b :: l2, h => by
    simp only [List.map_cons, List.cons.injEq] at h
    exact .cons h.1 (forall2_of_map_asciiLower_eq l1 l2 h.2)

/-- A list is a prefix of itself followed by anything. -/
theorem strStartsWith_append (n post : List Char) :
    strStartsWith n (n ++ post) = true := by
  induction n with
  | nil => rfl
  | cons c cs ih => simp [strStartsWith, ih]

/-- The empty needle occurs in every haystack. -/
theorem strContainsSub_nil (hay : List Char) : strContainsSub [] hay = true := by
  induction hay with
  | nil => rfl
  | cons c rest ih => simp [strContainsSub, strStartsWith]

/-- A needle occurs in any haystack that embeds it contiguously. -/
theorem strContainsSub_append (pre n post : List Char) :
    strContainsSub n (pre ++ (n ++ post)) = true := by
  induction pre with
  | nil =>
    simp only [List.nil_append]
    cases n with
    | nil => exact strContainsSub_nil post
    | cons c cs =>
      have h := strStartsWith_append (c :: cs) post
      simp only [List.cons_append] at h
      simp [strContainsSub, h]
  | cons p ps ih => simp [strContainsSub, ih]

/-- String concatenation concatenates the character data. -/
theorem data_append (a b : String) : (a ++ b).data = a.data ++ b.data := by
  cases a
  cases b
  rfl

/-- Ground evaluation facts used to steer the interaction through its
concrete happy prefix. -/
theorem parse_zero : parseI32 "0" = some 0 := by decide

theorem parse_one : parseI32 "1" = some 1 := by decide

theorem title_self : (! eqIgnoreAsciiCase expectedTitle expectedTitle) = false := by
  decide

theorem wrap_zero : i32WrapAdd1 0 = 1 := by decide

/-- When the h1 text fails the ASCII-case-insensitive comparison, the
interaction bails with the fixed message and the failure status marker is
the last emitted event, whatever the remaining call results would be. -/
theorem title_mismatch_content (t : String)
    (f4 f6 f7 f9 f10 f11 f12 : Except String Unit)
    (f5 f8 f13 : Except String String) (ck : Except String Unit)
    (ht : eqIgnoreAsciiCase t expectedTitle = false) :
    (run_test_content ⟨.ok (), .ok (), .ok t, f4, f5, f6, f7, f8, f9, f10,
        f11, f12, f13⟩ ck).fst = .error "Title mismatched :("
    ∧ (run_test_content ⟨.ok (), .ok (), .ok t, f4, f5, f6, f7, f8, f9, f10,
        f11, f12, f13⟩ ck).snd.getLast?
      = some (Event.setCookie "webgrid:metadata.session:status" "failure") := by
  unfold run_test_content
  simp [ht, send_message, set_status]

/-- Whenever the interaction returns success, the last emitted event is
the success status marker. -/
theorem status_success_of_ok (env : ContentEnv) (ck : Except String Unit)
    (h : (run_test_content env ck).fst = .ok ()) :
    (run_test_content env ck).snd.getLast?
      = some (Event.setCookie "webgrid:metadata.session:status" "success") := by
  obtain ⟨f1, f2, f3, f4, f5, f6, f7, f8, f9, f10, f11, f12, f13⟩ := env
  unfold run_test_content hashStep at h ⊢
  repeat' split at h
  all_goals simp_all [send_message, set_status]

/-- The interaction's result and trace do not depend on the results of
the telemetry add-cookie calls, which are discarded. -/
theorem content_cookie_independent (env : ContentEnv)
    (ck ck' : Except String Unit) :
    run_test_content env ck = run_test_content env ck' := by
  obtain ⟨f1, f2, f3, f4, f5, f6, f7, f8, f9, f10, f11, f12, f13⟩ := env
  unfold run_test_content hashStep
  repeat' split
  all_goals simp [send_message, set_status]

/-! ## Claim theorems: scripted interaction -/

/-- C10: the title assertion is ASCII-case-insensitive: any h1 text that
differs from the expected literal only in ASCII letter casing (pointwise
equivalent characters up to asciiLower) passes the comparison, and the
interaction does not fail the title step (with every later call
succeeding it returns success). -/
theorem c10_title_ignores_ascii_case (t : String)
    (h : List.Forall₂ (fun c d => asciiLower c = asciiLower d)
      t.data expectedTitle.data) :
    eqIgnoreAsciiCase t expectedTitle = true
    ∧ (run_test_content (envWithTitle t) (.ok ())).fst = .ok () := by
  have hmap := map_asciiLower_eq_of_forall2 _ _ h
  have heq : eqIgnoreAsciiCase t expectedTitle = true := by
    simp [eqIgnoreAsciiCase, hmap]
  refine ⟨heq, ?_⟩
  unfold run_test_content hashStep envWithTitle
  simp [heq, send_message, set_status, parse_zero, parse_one, wrap_zero]

/-- C10 witness: the fully upper-cased title passes the title step. -/
theorem c10_title_ignores_ascii_case_witness :
    eqIgnoreAsciiCase "HORRIBLE LOOKING TEST-PAGE" expectedTitle = true
    ∧ (run_test_content (envWithTitle "HORRIBLE LOOKING TEST-PAGE")
        (.ok ())).fst = .ok () := by
  exact c10_title_ignores_ascii_case "HORRIBLE LOOKING TEST-PAGE"
    (forall2_of_map_asciiLower_eq _ _ (by decide))

/-- C7 counterexample: when the very first remote call of the interaction
(the navigation) fails, run_test_content returns that failure without
emitting ANY final status marker: the claim that a success/failure marker
is emitted on every termination path is false. -/
theorem c7_no_status_on_remote_error_counterexample :
    (run_test_content envNavFail (.ok ())).fst = .error "connection refused"
    ∧ countStatus (run_test_content envNavFail (.ok ())).snd = 0 := by decide

/-- C7 amended: a final status marker is emitted as the last event on the
success path and on the three explicit assertion-failure paths (title
mismatch, increment broken, hash mismatch); errors propagated from remote
calls return without a marker (see the counterexample); and the telemetry
calls are best-effort — their own result is discarded, always reporting
Ok, and never changes the interaction's result or trace. -/
theorem c7_status_on_explicit_paths :
    (∀ (env : ContentEnv) (ck : Except String Unit),
      (run_test_content env ck).fst = .ok () →
      (run_test_content env ck).snd.getLast?
        = some (Event.setCookie "webgrid:metadata.session:status" "success"))
    ∧ (∀ (t : String) (f4 f6 f7 f9 f10 f11 f12 : Except String Unit)
        (f5 f8 f13 : Except String String) (ck : Except String Unit),
        eqIgnoreAsciiCase t expectedTitle = false →
        (run_test_content ⟨.ok (), .ok (), .ok t, f4, f5, f6, f7, f8, f9,
            f10, f11, f12, f13⟩ ck).fst = .error "Title mismatched :("
        ∧ (run_test_content ⟨.ok (), .ok (), .ok t, f4, f5, f6, f7, f8, f9,
            f10, f11, f12, f13⟩ ck).snd.getLast?
          = some (Event.setCookie "webgrid:metadata.session:status" "failure"))
    ∧ (∀ (v1 v2 : String) (n1 n2 : Int)
        (f9 f10 f11 f12 : Except String Unit) (f13 : Except String String)
        (ck : Except String Unit),
        parseI32 v1 = some n1 → parseI32 v2 = some n2 →
        i32WrapAdd1 n1 ≠ n2 →
        (run_test_content ⟨.ok (), .ok (), .ok expectedTitle, .ok (), .ok v1,
            .ok (), .ok (), .ok v2, f9, f10, f11, f12, f13⟩ ck).fst
          = .error "Increment is broken :("
        ∧ (run_test_content ⟨.ok (), .ok (), .ok expectedTitle, .ok (), .ok v1,
            .ok (), .ok (), .ok v2, f9, f10, f11, f12, f13⟩ ck).snd.getLast?
          = some (Event.setCookie "webgrid:metadata.session:status" "failure"))
    ∧ (∀ (hsh : String) (ck : Except String Unit),
        hsh ≠ expected_hash →
        (run_test_content (envWithHash hsh) ck).fst
          = .error ("Hash value updating is broken: " ++ hsh ++ " != "
              ++ expected_hash)
        ∧ (run_test_content (envWithHash hsh) ck).snd.getLast?
          = some (Event.setCookie "webgrid:metadata.session:status" "failure"))
    ∧ (∀ (env : ContentEnv) (ck ck' r : Except String Unit) (m st : String),
        run_test_content env ck = run_test_content env ck'
        ∧ (send_message r m).fst = .ok ()
        ∧ (set_status r st).fst = .ok ()) := by
  refine ⟨status_success_of_ok, title_mismatch_content, ?_, ?_, ?_⟩
  · intro v1 v2 n1 n2 f9 f10 f11 f12 f13 ck hp1 hp2 hne
    unfold run_test_content
    constructor <;>
      simp [title_self, hp1, hp2, hne, send_message, set_status]
  · intro hsh ck hh
    unfold run_test_content hashStep envWithHash
    constructor <;>
      simp [title_self, parse_zero, parse_one, wrap_zero, hh,
        send_message, set_status]
  · intro env ck ck' r m st
    exact ⟨content_cookie_independent env ck ck', rfl, rfl⟩

/-- C7 amended witness: concrete instances of each emitted-marker path —
a run with a wrong title ends on the failure marker, the all-success run
ends on the success marker, and a failing cookie write is invisible. -/
theorem c7_status_on_explicit_paths_witness :
    ((run_test_content ⟨.ok (), .ok (), .ok "Wrong", .ok (), .ok "0", .ok (),
        .ok (), .ok "1", .ok (), .ok (), .ok (), .ok (), .ok expected_hash⟩
        (.ok ())).fst = .error "Title mismatched :(")
    ∧ ((run_test_content envAllOk (.ok ())).snd.getLast?
        = some (Event.setCookie "webgrid:metadata.session:status" "success"))
    ∧ run_test_content envAllOk (.ok ())
        = run_test_content envAllOk (.error "cookie rejected") := by
  refine ⟨(c7_status_on_explicit_paths.2.1 "Wrong" (.ok ()) (.ok ()) (.ok ())
      (.ok ()) (.ok ()) (.ok ()) (.ok ()) (.ok "0") (.ok "1")
      (.ok expected_hash) (.ok ()) (by decide)).1, ?_, ?_⟩
  · exact c7_status_on_explicit_paths.1 envAllOk (.ok ()) (by decide)
  · exact (c7_status_on_explicit_paths.2.2.2.2 envAllOk (.ok ())
      (.error "cookie rejected") (.ok ()) "m" "s").1

/-- The driver's verdict is the interaction's verdict wrapped with the
session id, for every known browser kind. -/
theorem run_test_fst_eq (browser session_id : String) (env : ContentEnv)
    (ck q : Except String Unit) (hb : browserKnown browser = true) :
    (run_test browser (.ok session_id) env ck q).fst
      = wrapVerdict session_id (run_test_content env ck).fst := by
  unfold run_test
  rw [hb]
  rcases run_test_content env ck with ⟨r, tr⟩
  rfl

/-- C8 counterexample: a task whose page reports the title "Wrong" fails
with the fixed message "Title mismatched :(" (wrapped with the session
id); the message contains NEITHER the expected title literal NOR the
actual title, refuting the claim that both appear. -/
theorem c8_message_lacks_titles_counterexample :
    (run_test "firefox" (.ok "session-1")
        ⟨.ok (), .ok (), .ok "Wrong", .ok (), .ok "0", .ok (), .ok (),
          .ok "1", .ok (), .ok (), .ok (), .ok (), .ok expected_hash⟩
        (.ok ()) (.ok ())).fst
      = .error "session-1 failed due to Title mismatched :("
    ∧ containsSubstring expectedTitle
        "session-1 failed due to Title mismatched :(" = false
    ∧ containsSubstring "Wrong"
        "session-1 failed due to Title mismatched :(" = false := by decide

/-- C8 amended: on a title mismatch the task fails with the fixed message
"{session id} failed due to Title mismatched :(" — which carries the
session id but not the expected or actual title — and a failing task
contributes exactly one to the tally without touching its siblings'
contributions. -/
theorem c8_title_mismatch_fixed_message (browser session_id t : String)
    (f4 f6 f7 f9 f10 f11 f12 : Except String Unit)
    (f5 f8 f13 : Except String String) (ck q : Except String Unit)
    (hb : browserKnown browser = true)
    (ht : eqIgnoreAsciiCase t expectedTitle = false) :
    (run_test browser (.ok session_id) ⟨.ok (), .ok (), .ok t, f4, f5, f6,
        f7, f8, f9, f10, f11, f12, f13⟩ ck q).fst
      = .error (session_id ++ " failed due to " ++ "Title mismatched :(")
    ∧ ∀ (l₁ l₂ : List TaskResult) (m : String),
        failedCount (l₁ ++ TaskResult.finished (.error m) :: l₂)
          = failedCount l₁ + 1 + failedCount l₂ := by
  constructor
  · rw [run_test_fst_eq browser session_id _ ck q hb,
      (title_mismatch_content t f4 f6 f7 f9 f10 f11 f12 f5 f8 f13 ck ht).1]
    rfl
  · intro l₁ l₂ m
    simp [failedCount, List.countP_append, List.countP_cons,
      TaskResult.isFailure]
    omega

/-- C8 amended witness: a concrete mismatching run produces exactly the
fixed wrapped message, and a failing task adds one to the tally. -/
theorem c8_title_mismatch_fixed_message_witness :
    (run_test "safari" (.ok "s-42") ⟨.ok (), .ok (), .ok "Wrong", .ok (),
        .ok "0", .ok (), .ok (), .ok "1", .ok (), .ok (), .ok (), .ok (),
        .ok expected_hash⟩ (.ok ()) (.ok ())).fst
      = .error ("s-42" ++ " failed due to " ++ "Title mismatched :(")
    ∧ failedCount ([TaskResult.finished (.ok ())]
          ++ TaskResult.finished (.error "x") :: [])
      = failedCount [TaskResult.finished (.ok ())] + 1 + failedCount [] := by
  have h := c8_title_mismatch_fixed_message "safari" "s-42" "Wrong"
    (.ok ()) (.ok ()) (.ok ()) (.ok ()) (.ok ()) (.ok ()) (.ok ())
    (.ok "0") (.ok "1") (.ok expected_hash) (.ok ()) (.ok ())
    (by decide) (by decide)
  exact ⟨h.1, h.2 _ _ "x"⟩

/-- C9 counterexample: the mutate step never types the multi-byte input
the claim exemplifies: the typed value is the fixed ASCII literal
"No emojis allowed here :(" — every character below 128 — and the
interaction's trace contains a send-keys event for that literal and none
for "🛋🥔". -/
theorem c9_typed_value_not_emoji_counterexample :
    expected_hash = "No emojis allowed here :("
    ∧ (expected_hash == "🛋🥔") = false
    ∧ expected_hash.data.all (fun c => c.toNat ≤ 127) = true
    ∧ (run_test_content envAllOk (.ok ())).snd.countP
        (fun e => e == Event.sendKeys "newHashValue" "🛋🥔") = 0
    ∧ (Event.sendKeys "newHashValue" expected_hash)
        ∈ (run_test_content envAllOk (.ok ())).snd := by decide

/-- C9 amended: the typed value is the fixed ASCII literal
"No emojis allowed here :(" (no non-ASCII input is exercised); the
interaction demands the read-back value be exactly equal to it, and any
mismatch is a terminal failure whose message reports both the read-back
and the typed value. -/
theorem c9_hash_roundtrip_checked_exactly (hsh : String)
    (ck : Except String Unit) :
    (hsh ≠ expected_hash →
      (run_test_content (envWithHash hsh) ck).fst
        = .error ("Hash value updating is broken: " ++ hsh ++ " != "
            ++ expected_hash)
      ∧ containsSubstring hsh ("Hash value updating is broken: " ++ hsh
          ++ " != " ++ expected_hash) = true
      ∧ containsSubstring expected_hash ("Hash value updating is broken: "
          ++ hsh ++ " != " ++ expected_hash) = true)
    ∧ (hsh = expected_hash →
      (run_test_content (envWithHash hsh) ck).fst = .ok ())
    ∧ expected_hash.data.all (fun c => c.toNat ≤ 127) = true := by
  refine ⟨fun hh => ⟨?_, ?_, ?_⟩, fun hh => ?_, by decide⟩
  · unfold run_test_content hashStep envWithHash
    simp [title_self, parse_zero, parse_one, wrap_zero, hh,
      send_message, set_status]
  · have h := strContainsSub_append ("Hash value updating is broken: ").data
      hsh.data (" != " ++ expected_hash).data
    simpa [containsSubstring, data_append, List.append_assoc] using h
  · have h := strContainsSub_append
      ("Hash value updating is broken: " ++ hsh ++ " != ").data
      expected_hash.data []
    simpa [containsSubstring, data_append, List.append_assoc] using h
  · subst hh
    unfold run_test_content hashStep envWithHash
    simp [title_self, parse_zero, parse_one, wrap_zero,
      send_message, set_status]

/-- C9 amended witness: a tampered read-back fails with the message
carrying both values; the faithful read-back succeeds. -/
theorem c9_hash_roundtrip_checked_exactly_witness :
    (run_test_content (envWithHash "tampered") (.ok ())).fst
      = .error ("Hash value updating is broken: " ++ "tampered" ++ " != "
          ++ expected_hash)
    ∧ containsSubstring "tampered" ("Hash value updating is broken: "
        ++ "tampered" ++ " != " ++ expected_hash) = true
    ∧ (run_test_content (envWithHash expected_hash) (.ok ())).fst = .ok () := by
  have h1 := (c9_hash_roundtrip_checked_exactly "tampered" (.ok ())).1 (by decide)
  exact ⟨h1.1, h1.2.1,
    (c9_hash_roundtrip_checked_exactly expected_hash (.ok ())).2.1 rfl⟩

/-- C4 counterexample: with a one-second timeout, a session creation that
takes exactly one second and an interaction that takes one hundred, the
task runs for 101 seconds — far beyond the configured per-session
timeout — and still completes successfully: the timeout does not bound
the task's total execution. -/
theorem c4_total_not_bounded_counterexample :
    (run_test_timed "firefox" (.ok "sid") envAllOk (.ok ()) (.ok ())
        1 1 100).snd = 101
    ∧ 1 < (run_test_timed "firefox" (.ok "sid") envAllOk (.ok ()) (.ok ())
        1 1 100).snd
    ∧ (run_test_timed "firefox" (.ok "sid") envAllOk (.ok ()) (.ok ())
        1 1 100).fst.fst = .ok () := by decide

/-- C4 amended: the configured timeout bounds only the session-creation
call — creation exceeding it fails that task specifically with a
session-creation timeout error — and a failing task adds exactly one to
the tally without disturbing its siblings' contributions; the interaction
after creation is not time-bounded (see the counterexample). -/
theorem c4_timeout_bounds_creation_only (browser : String)
    (openR : Except String String) (env : ContentEnv)
    (ck q : Except String Unit) (timeoutSecs openDur contentDur : Nat)
    (hb : browserKnown browser = true) (hd : openDur > timeoutSecs) :
    (run_test_timed browser openR env ck q timeoutSecs openDur
        contentDur).fst.fst = .error "Session creation timed out"
    ∧ ∀ (l₁ l₂ : List TaskResult) (m : String),
        failedCount (l₁ ++ TaskResult.finished (.error m) :: l₂)
          = failedCount l₁ + (1 + failedCount l₂) := by
  constructor
  · unfold run_test_timed new_with_timeout run_test
    rw [hb]
    simp [hd]
  · intro l₁ l₂ m
    simp [failedCount, List.countP_append, List.countP_cons,
      TaskResult.isFailure]
    omega

/-- C4 amended witness: a six-second creation against a five-second
timeout fails that task with the creation-timeout error and counts once. -/
theorem c4_timeout_bounds_creation_only_witness :
    (run_test_timed "chrome" (.ok "sid") envAllOk (.ok ()) (.ok ())
        5 6 0).fst.fst = .error "Session creation timed out"
    ∧ failedCount ([] ++ TaskResult.finished (.error "t") :: [])
      = failedCount [] + (1 + failedCount []) := by
  have h := c4_timeout_bounds_creation_only "chrome" (.ok "sid") envAllOk
    (.ok ()) (.ok ()) 5 6 0 (by decide) (by decide)
  exact ⟨h.1, h.2 [] [] "t"⟩

end ParallelSeleniumTest
